import Mathlib

/-!
Shallow embedding of `scripts/embeddings.py`: a line-oriented embedding
server.  The script reads JSON requests from stdin, loads (and caches)
sentence-transformer models, generates embeddings and writes JSON
responses.  The third-party library calls (`SentenceTransformer(...)` and
`model.encode(...)`) are external collaborators and are modelled as
oracle functions supplied as parameters; everything else (cache logic,
request validation, error handling, the server loop) is translated
directly from the source.

Python's dynamic typing is modelled explicitly where it matters: on
exception, `load_model` and `generate_embedding` execute
`return None, str(e)`, which returns a two-element *tuple*, not `None`.
The callers test `is None`, which is false for a tuple; the embedding
keeps both the tuple results and the `is None` tests as the source has
them.
-/

set_option autoImplicit false

namespace Embeddings

/-- Parsed JSON values, the output of `json.loads`.  Numbers are kept
abstract as integers; no claim depends on numeric JSON contents. -/
inductive Json where
  | null
  | bool (b : Bool)
  | num (n : Int)
  | str (s : String)
  | arr (elems : List Json)
  | obj (fields : List (String × Json))

mutual

/-- Structural equality on JSON values (Python `==` on parsed values). -/
def Json.beq : Json → Json → Bool
  | .null, .null => true
  | .bool a, .bool b => a == b
  | .num a, .num b => a == b
  | .str a, .str b => a == b
  | .arr a, .arr b => Json.beqList a b
  | .obj a, .obj b => Json.beqFields a b
  | _, _ => false

/-- Elementwise equality on JSON arrays. -/
def Json.beqList : List Json → List Json → Bool
  | [], [] => true
  | x :: xs, y :: ys => Json.beq x y && Json.beqList xs ys
  | _, _ => false

/-- Elementwise equality on JSON object fields. -/
def Json.beqFields : List (String × Json) → List (String × Json) → Bool
  | [], [] => true
  | (k, v) :: xs, (l, w) :: ys => k == l && Json.beq v w && Json.beqFields xs ys
  | _, _ => false

end

instance : BEq Json := ⟨Json.beq⟩

/-- Whether a Python value is hashable (usable as a dict key):
lists and dicts are not. -/
def Json.hashable : Json → Bool
  | .arr _ => false
  | .obj _ => false
  | _ => true

/-- Python `str(x)`, as used by the f-string
`f"Failed to load model: ..."`. -/
def Json.pyStr : Json → String
  | .str s => s
  | .num n => toString n
  | .bool true => "True"
  | .bool false => "False"
  | .null => "None"
  | .arr _ => "<list>"
  | .obj _ => "<dict>"

/-- Python substring containment `pat in s` (used by `"text" in request`
when the parsed request is a string). -/
def strContainsSub (s pat : String) : Bool :=
  pat == "" || (s.splitOn pat).length > 1

/-- Python `key in request`: key membership for dicts, element membership
for lists, substring test for strings; raises `TypeError` for
non-container values.  `Except.error` models a raised exception. -/
def Json.containsKey : Json → String → Except String Bool
  | .obj fields, k => .ok (fields.any (fun kv => kv.1 == k))
  | .arr elems, k => .ok (elems.any (fun e => e == Json.str k))
  | .str s, k => .ok (strContainsSub s k)
  | .null, _ => .error "argument of type NoneType is not iterable"
  | .bool _, _ => .error "argument of type bool is not iterable"
  | .num _, _ => .error "argument of type int is not iterable"

/-- Python `request[key]` with a string key: dict lookup succeeds, lists
and strings raise `TypeError` on string subscripts, scalars are not
subscriptable.  `Except.error` models a raised exception. -/
def Json.getItem : Json → String → Except String Json
  | .obj fields, k =>
      match fields.find? (fun kv => kv.1 == k) with
      | some kv => .ok kv.2
      | none => .error ("KeyError: " ++ k)
  | .arr _, _ => .error "list indices must be integers or slices, not str"
  | .str _, _ => .error "string indices must be integers"
  | .null, _ => .error "NoneType object is not subscriptable"
  | .bool _, _ => .error "bool object is not subscriptable"
  | .num _, _ => .error "int object is not subscriptable"

/-- Numpy / torch element dtypes, tracking the floating-point precision
of a returned vector. -/
inductive NpDtype where
  | float16
  | float32
  | float64
deriving DecidableEq

/-- The value `model.encode(...)` can evaluate to: a numpy array (the
library's standard output), a torch tensor (has `.tolist()` but is not a
numpy array, so `isinstance(embedding, np.ndarray)` is false), or a
plain Python list (no `.tolist()` attribute).  Scalar payloads are
abstract. -/
inductive EncodeOut where
  | ndarray (dtype : NpDtype) (data : List Int)
  | tensor (dtype : NpDtype) (data : List Int)
  | pylist (data : List Int)

/-- A loaded model handle.  `encode` is the library's inference call, an
oracle: `Except.error` models a raised exception. -/
structure Model where
  mid : Nat
  encode : Json → Except String EncodeOut

/-- The library's model constructor `SentenceTransformer(name, device)`,
an oracle: `Except.error` models a raised exception. -/
abbrev Loader : Type := Json → Except String Model

/-- The global `_model_cache` dict: model identifier → loaded model. -/
abbrev Cache : Type := List (Json × Model)

/-- What `load_model` can return: a model handle, or — via the buggy
`return None, str(e)` in its `except` clause — the tuple `(None, msg)`.
It never returns the Python value `None` itself. -/
inductive LoadRet where
  | model (m : Model)
  | errTuple (msg : String)

/-- Python `x is None` applied to a `load_model` result: false for a
model instance and false for a tuple. -/
def LoadRet.isNone : LoadRet → Bool
  | .model _ => false
  | .errTuple _ => false

/-- `load_model(model_name)`: return the cached handle if present,
otherwise construct the model, cache it and return it; on any exception
inside the `try` block (an unhashable key in the membership test, or the
constructor raising) return the tuple `(None, str(e))`.  The third
component counts constructor invocations (0 or 1), the load-count
instrumentation the spec asks caching to be observable by. -/
def load_model (loader : Loader) (cache : Cache) (model_name : Json) :
    LoadRet × Cache × Nat :=
  if model_name.hashable = false then
    (.errTuple "unhashable type", cache, 0)
  else
    match cache.find? (fun kv => kv.1 == model_name) with
    | some kv => (.model kv.2, cache, 0)
    | none =>
      match loader model_name with
      | .ok m => (.model m, (model_name, m) :: cache, 1)
      | .error e => (.errTuple e, cache, 1)

/-- What `generate_embedding` can return: `embedding.tolist()` — a plain
list tagged with the dtype the array/tensor had when `tolist` ran — or,
via `return None, str(e)` in its `except` clause, the tuple
`(None, msg)`. -/
inductive GenRet where
  | list (dtypeAtTolist : NpDtype) (data : List Int)
  | errTuple (msg : String)

/-- Python `x is None` applied to a `generate_embedding` result: false
for a list and false for a tuple. -/
def GenRet.isNone : GenRet → Bool
  | .list _ _ => false
  | .errTuple _ => false

/-- `generate_embedding(model, text)`: call `model.encode(text)`;
if the result is a numpy array, cast it with `.astype(np.float32)`;
return `embedding.tolist()`.  Any exception (the `model` argument being
the tuple from a failed `load_model`, `encode` raising, or `tolist`
missing on a plain list) is caught and the tuple `(None, str(e))` is
returned. -/
def generate_embedding (model : LoadRet) (text : Json) : GenRet :=
  match model with
  | .errTuple _ => .errTuple "tuple object has no attribute encode"
  | .model m =>
    match m.encode text with
    | .error e => .errTuple e
    | .ok out =>
      match out with
      | .ndarray _ v => .list .float32 v
      | .tensor d v => .list d v
      | .pylist _ => .errTuple "list object has no attribute tolist"

/-- A value inside a JSON response object: an error string, an embedding
vector (tagged with the precision it was produced at), or the serialized
tuple `(None, msg)` — which `json.dumps` renders as `[null, msg]`. -/
inductive RespVal where
  | str (s : String)
  | vec (dtype : NpDtype) (data : List Int)
  | errPair (msg : String)
deriving DecidableEq

/-- A response object, a Python dict rendered by `json.dumps`. -/
abbrev Resp : Type := List (String × RespVal)

/-- The tail of `handle_request` after field validation: load the model,
test `model is None`, generate the embedding, test `embedding is None`,
and build the response.  Returns the response together with the cache
after the call and the number of model constructor invocations
performed. -/
def dispatch_request (loader : Loader) (cache : Cache)
    (text model_name : Json) : Resp × Cache × Nat :=
  let r := load_model loader cache model_name
  if r.1.isNone = true then
    ([("error", .str ("Failed to load model: " ++ model_name.pyStr))],
     r.2.1, r.2.2)
  else
    let gen := generate_embedding r.1 text
    if gen.isNone = true then
      ([("error", .str "Failed to generate embedding")], r.2.1, r.2.2)
    else
      match gen with
      | .list d v => ([("embedding", .vec d v)], r.2.1, r.2.2)
      | .errTuple m => ([("embedding", .errPair m)], r.2.1, r.2.2)

/-- The body of `handle_request` inside its outer `try`:
`Except.error` models an exception escaping to the outer handler.
Returns the response together with the cache after the call and the
number of model constructor invocations performed. -/
def handle_request_body (loader : Loader) (cache : Cache)
    (parsed : Except String Json) : Except String (Resp × Cache × Nat) :=
  match parsed with
  | .error e => .ok ([("error", .str ("Invalid JSON input: " ++ e))], cache, 0)
  | .ok request =>
    match request.containsKey "text" with
    | .error e => .error e
    | .ok hasText =>
      if hasText = false then
        .ok ([("error", .str "Missing 'text' field in request")], cache, 0)
      else
        match request.containsKey "model" with
        | .error e => .error e
        | .ok hasModel =>
          if hasModel = false then
            .ok ([("error", .str "Missing 'model' field in request")], cache, 0)
          else
            match request.getItem "text" with
            | .error e => .error e
            | .ok text =>
              match request.getItem "model" with
              | .error e => .error e
              | .ok model_name =>
                .ok (dispatch_request loader cache text model_name)

/-- `handle_request(request_data)`: the body wrapped in the outer
`try/except` that converts any escaping exception into
`{"error": "Unexpected error: ..."}`.  The exceptions the body can raise
all occur before `load_model` runs, so the cache is unchanged on that
path. -/
def handle_request (loader : Loader) (cache : Cache)
    (parsed : Except String Json) : Resp × Cache × Nat :=
  match handle_request_body loader cache parsed with
  | .ok r => r
  | .error e => ([("error", .str ("Unexpected error: " ++ e))], cache, 0)

/-- Python `line.strip()`: drop leading and trailing whitespace. -/
def pyStrip (s : String) : String :=
  String.mk (((s.toList.dropWhile Char.isWhitespace).reverse.dropWhile
    Char.isWhitespace).reverse)

/-- `json.loads` as an oracle: parsing of raw request lines. -/
abbrev ParseFn : Type := String → Except String Json

/-- The server loop of `main` over a list of input lines: strip each
line, skip blanks, stop at `QUIT`, otherwise answer with exactly one
response per line, threading the model cache. Returns the list of
response lines emitted (the initial `{"status": "ready"}` line and
stdout mechanics are outside the model). -/
def main_loop (parse : ParseFn) (loader : Loader) :
    List String → Cache → List Resp
  | [], _ => []
  | line :: rest, cache =>
    let l := pyStrip line
    if l = "" then main_loop parse loader rest cache
    else if l = "QUIT" then []
    else
      let r := handle_request loader cache (parse l)
      r.1 :: main_loop parse loader rest r.2.1

/-! ### Concrete fixtures: oracle instantiations used in witnesses and
counterexamples. -/

/-- A loader oracle whose constructor always raises. -/
def failLoader : Loader := fun _ => .error "model not found"

/-- A model whose inference returns a numpy float64 array. -/
def demoModel : Model := { mid := 0, encode := fun _ => .ok (.ndarray .float64 [1, 2, 3]) }

/-- A loader oracle that always yields `demoModel`. -/
def demoLoader : Loader := fun _ => .ok demoModel

/-- A model whose inference always raises. -/
def raisingModel : Model := { mid := 1, encode := fun _ => .error "CUDA error" }

/-- A loader oracle that always yields `raisingModel`. -/
def raisingLoader : Loader := fun _ => .ok raisingModel

/-- A model whose inference returns a torch float64 tensor. -/
def tensorModel : Model := { mid := 2, encode := fun _ => .ok (.tensor .float64 [5]) }

/-- The parsed request `{"text": "hi", "model": "bad-model"}`. -/
def reqHiBad : Except String Json :=
  .ok (.obj [("text", .str "hi"), ("model", .str "bad-model")])

/-- A parse oracle that always reports a JSON decode error. -/
def failParse : ParseFn := fun _ => .error "Expecting value"

/-- `Json.str s` is `==`-equal to itself. -/
theorem Json.beq_str_refl (s : String) : (Json.str s == Json.str s) = true := by
  show Json.beq (Json.str s) (Json.str s) = true
  simp [Json.beq]

/-- The `model is None` test in `handle_request` is dead: no value
`load_model` can return is the Python value `None`. -/
theorem loadRet_isNone_eq_false (r : LoadRet) : r.isNone = false := by
  cases r <;> rfl

/-- The `embedding is None` test in `handle_request` is dead: no value
`generate_embedding` can return is the Python value `None`. -/
theorem genRet_isNone_eq_false (g : GenRet) : g.isNone = false := by
  cases g <;> rfl

/-- Every response `dispatch_request` produces is a dict with exactly one
key, `embedding` or `error` — stated through the `Except` wrapping used
by `handle_request_body`. -/
theorem dispatch_request_ok_shape (loader : Loader) (cache : Cache)
    (text model_name : Json) :
    ∃ k v c n, (Except.ok (dispatch_request loader cache text model_name)
        : Except String (Resp × Cache × Nat)) = .ok ([(k, v)], c, n)
      ∧ (k = "embedding" ∨ k = "error") := by
  unfold dispatch_request
  simp only [loadRet_isNone_eq_false, genRet_isNone_eq_false,
    Bool.false_eq_true, if_false]
  split
  · exact ⟨"embedding", _, _, _, rfl, Or.inl rfl⟩
  · exact ⟨"embedding", _, _, _, rfl, Or.inl rfl⟩

/-- Every response `handle_request_body` can produce (when it does not
raise) is a dict with exactly one key, `embedding` or `error`. -/
theorem handle_request_body_shape (loader : Loader) (cache : Cache)
    (parsed : Except String Json) :
    (∃ e, handle_request_body loader cache parsed = .error e)
    ∨ (∃ k v c n, handle_request_body loader cache parsed = .ok ([(k, v)], c, n)
        ∧ (k = "embedding" ∨ k = "error")) := by
  unfold handle_request_body
  split
  · right; exact ⟨"error", _, _, _, rfl, Or.inr rfl⟩
  · split
    · left; exact ⟨_, rfl⟩
    · split
      · right; exact ⟨"error", _, _, _, rfl, Or.inr rfl⟩
      · split
        · left; exact ⟨_, rfl⟩
        · split
          · right; exact ⟨"error", _, _, _, rfl, Or.inr rfl⟩
          · split
            · left; exact ⟨_, rfl⟩
            · split
              · left; exact ⟨_, rfl⟩
              · right; exact dispatch_request_ok_shape loader cache _ _

/-! ### Claims -/

/-- Claim C1: the claim says that when the loader raises, `handle_request`
returns `{"error": "Failed to load model: <model>"}`.  The code does not:
`load_model`'s `except` clause returns the tuple `(None, str(e))`, which
fails the `model is None` test, so the tuple flows into
`generate_embedding`, whose `tuple.encode` attribute error is again
returned as a tuple that passes the `is None` test, and the response is
`{"embedding": [null, "..."]}`.  This theorem evaluates the code at the
failing input `{"text": "hi", "model": "bad-model"}` with a loader that
raises. -/
theorem C1_load_failure_misreported :
    (handle_request failLoader [] reqHiBad).1
        = [("embedding", RespVal.errPair "tuple object has no attribute encode")]
    ∧ (handle_request failLoader [] reqHiBad).1
        ≠ [("error", RespVal.str "Failed to load model: bad-model")] :=
  ⟨rfl, by decide⟩

/-- Claim C2: the claim says that when inference raises, `handle_request`
returns `{"error": "Failed to generate embedding"}`.  The failure is
indeed caught (not raised past the caller), but `generate_embedding`'s
`except` clause returns the tuple `(None, str(e))`, which fails the
`embedding is None` test, so the response is `{"embedding": [null, msg]}`
instead.  This theorem evaluates the code at a request whose model loads
and whose inference raises. -/
theorem C2_inference_failure_misreported :
    (handle_request raisingLoader [] reqHiBad).1
        = [("embedding", RespVal.errPair "CUDA error")]
    ∧ (handle_request raisingLoader [] reqHiBad).1
        ≠ [("error", RespVal.str "Failed to generate embedding")] :=
  ⟨rfl, by decide⟩

/-- Claim C3: whenever `load_model` fails (returns the error tuple rather
than a model handle), the model cache it returns is exactly the cache it
was given: no entry is added under the requested identifier. -/
theorem C3_failed_load_leaves_cache_unchanged (loader : Loader) (cache : Cache)
    (k : Json) (e : String)
    (h : (load_model loader cache k).1 = LoadRet.errTuple e) :
    (load_model loader cache k).2.1 = cache := by
  revert h
  unfold load_model
  split
  · intro _; rfl
  · split
    · intro h; cases h
    · split
      · intro h; cases h
      · intro _; rfl

/-- Witness for C3 at a concrete failing load. -/
theorem C3_witness :
    (load_model failLoader [] (Json.str "bad")).2.1 = ([] : Cache) :=
  C3_failed_load_leaves_cache_unchanged failLoader [] (Json.str "bad")
    "model not found" rfl

/-- Claim C4: a model identifier already present in the cache is returned
from the cache with zero constructor invocations and the cache unchanged;
consequently, after a first successful load stores a handle, a second
request for the same identifier performs no load and returns exactly the
stored handle. -/
theorem C4_cache_hit_and_reuse (loader : Loader) (s : String) :
    (∀ (cache : Cache) (p : Json × Model),
        cache.find? (fun kv => kv.1 == Json.str s) = some p →
        load_model loader cache (Json.str s) = (LoadRet.model p.2, cache, 0))
    ∧ (∀ (cache : Cache) (m : Model),
        cache.find? (fun kv => kv.1 == Json.str s) = none →
        loader (Json.str s) = .ok m →
        load_model loader cache (Json.str s)
            = (LoadRet.model m, (Json.str s, m) :: cache, 1)
        ∧ load_model loader ((Json.str s, m) :: cache) (Json.str s)
            = (LoadRet.model m, (Json.str s, m) :: cache, 0)) := by
  constructor
  · intro cache p hf
    simp [load_model, Json.hashable, hf]
  · intro cache m hf hl
    have hcons : ((Json.str s, m) :: cache).find? (fun kv => kv.1 == Json.str s)
        = some (Json.str s, m) := by
      simp [List.find?, Json.beq_str_refl]
    constructor
    · simp [load_model, Json.hashable, hf, hl]
    · simp [load_model, Json.hashable, hcons]

/-- Witness for C4: a fresh load stores the handle; the second request
returns it with zero loads. -/
theorem C4_witness :
    load_model demoLoader [] (Json.str "m")
        = (LoadRet.model demoModel, [(Json.str "m", demoModel)], 1)
    ∧ load_model demoLoader [(Json.str "m", demoModel)] (Json.str "m")
        = (LoadRet.model demoModel, [(Json.str "m", demoModel)], 0) :=
  (C4_cache_hit_and_reuse demoLoader "m").2 [] demoModel rfl rfl

/-- Claim C5: for a request with string `text` and `model` fields whose
model loads successfully and whose inference returns a numeric vector (a
numpy array), the response is `{"embedding": <the float32 vector>}` with
no `error` field. -/
theorem C5_success_response (loader : Loader) (cache : Cache) (t s : String)
    (m : Model) (d : NpDtype) (v : List Int)
    (hload : (load_model loader cache (Json.str s)).1 = LoadRet.model m)
    (henc : m.encode (Json.str t) = .ok (EncodeOut.ndarray d v)) :
    (handle_request loader cache
        (.ok (Json.obj [("text", Json.str t), ("model", Json.str s)]))).1
      = [("embedding", RespVal.vec NpDtype.float32 v)]
    ∧ ∀ x, ("error", x) ∉ (handle_request loader cache
        (.ok (Json.obj [("text", Json.str t), ("model", Json.str s)]))).1 := by
  have hgen : generate_embedding (load_model loader cache (Json.str s)).1
      (Json.str t) = GenRet.list NpDtype.float32 v := by
    rw [hload]
    simp [generate_embedding, henc]
  have hbody : handle_request_body loader cache
      (.ok (Json.obj [("text", Json.str t), ("model", Json.str s)]))
      = .ok ([("embedding", RespVal.vec NpDtype.float32 v)],
             (load_model loader cache (Json.str s)).2.1,
             (load_model loader cache (Json.str s)).2.2) := by
    simp [handle_request_body, dispatch_request, Json.containsKey,
          Json.getItem, List.find?, loadRet_isNone_eq_false, hgen,
          genRet_isNone_eq_false, Prod.mk.eta]
  constructor
  · simp [handle_request, hbody]
  · intro x
    simp [handle_request, hbody]

/-- Witness for C5 at a concrete loadable model returning a float64
array. -/
theorem C5_witness :
    (handle_request demoLoader []
        (.ok (Json.obj [("text", Json.str "hi"), ("model", Json.str "m")]))).1
      = [("embedding", RespVal.vec NpDtype.float32 [1, 2, 3])]
    ∧ ∀ x, ("error", x) ∉ (handle_request demoLoader []
        (.ok (Json.obj [("text", Json.str "hi"), ("model", Json.str "m")]))).1 :=
  C5_success_response demoLoader [] "hi" "m" demoModel NpDtype.float64
    [1, 2, 3] rfl rfl

/-- Claim C6: for a parsed JSON object request, a missing `text` key
yields exactly `{"error": "Missing 'text' field in request"}` (regardless
of whether `model` is also missing — the `text` check runs first), and a
present `text` key with a missing `model` key yields exactly
`{"error": "Missing 'model' field in request"}`. -/
theorem C6_missing_field_errors (loader : Loader) (cache : Cache)
    (fields : List (String × Json)) :
    (fields.any (fun kv => kv.1 == "text") = false →
      (handle_request loader cache (.ok (Json.obj fields))).1
        = [("error", RespVal.str "Missing 'text' field in request")])
    ∧ (fields.any (fun kv => kv.1 == "text") = true →
       fields.any (fun kv => kv.1 == "model") = false →
      (handle_request loader cache (.ok (Json.obj fields))).1
        = [("error", RespVal.str "Missing 'model' field in request")]) := by
  constructor
  · intro h
    simp [handle_request, handle_request_body, Json.containsKey, h]
  · intro h1 h2
    simp [handle_request, handle_request_body, Json.containsKey, h1, h2]

/-- Witness for C6: a request missing both fields gets the `text` error;
a request with only `text` gets the `model` error. -/
theorem C6_witness :
    (handle_request failLoader [] (.ok (Json.obj []))).1
        = [("error", RespVal.str "Missing 'text' field in request")]
    ∧ (handle_request failLoader [] (.ok (Json.obj [("text", Json.null)]))).1
        = [("error", RespVal.str "Missing 'model' field in request")] :=
  ⟨(C6_missing_field_errors failLoader [] []).1 rfl,
   (C6_missing_field_errors failLoader [] [("text", Json.null)]).2 rfl rfl⟩

/-- Claim C7, counterexample: the loop compares the *stripped* line
against `QUIT`, so the raw line `"  QUIT  "` — which is non-blank and not
exactly `QUIT` — nevertheless terminates the loop with no response
emitted (the following line is never answered), contradicting the claim
that only a line consisting exactly of `QUIT` terminates and that every
other non-blank line is answered. -/
theorem C7_counterexample :
    pyStrip "  QUIT  " = "QUIT"
    ∧ "  QUIT  " ≠ "QUIT"
    ∧ main_loop failParse failLoader ["  QUIT  ", "hello"] [] = [] :=
  ⟨rfl, by decide, rfl⟩

/-- Claim C7, amended: an input line terminates the loop with no response
emitted if and only if its whitespace-stripped content equals `QUIT`;
every line whose stripped content is non-blank and not `QUIT` is handled
and answered with exactly one response line. -/
theorem C7_quit_semantics (parse : ParseFn) (loader : Loader)
    (line : String) (rest : List String) (cache : Cache) :
    (pyStrip line = "QUIT" →
        main_loop parse loader (line :: rest) cache = [])
    ∧ (pyStrip line ≠ "" → pyStrip line ≠ "QUIT" →
        main_loop parse loader (line :: rest) cache
          = (handle_request loader cache (parse (pyStrip line))).1
            :: main_loop parse loader rest
                (handle_request loader cache (parse (pyStrip line))).2.1) := by
  constructor
  · intro h
    simp [main_loop, h]
  · intro h1 h2
    simp [main_loop, h1, h2]

/-- Witness for the amended C7: `QUIT` terminates before later lines; a
plain line is answered with exactly one response. -/
theorem C7_witness :
    main_loop failParse failLoader ["QUIT", "x"] [] = []
    ∧ main_loop failParse failLoader ["x"] []
        = (handle_request failLoader [] (failParse (pyStrip "x"))).1
          :: main_loop failParse failLoader []
              (handle_request failLoader [] (failParse (pyStrip "x"))).2.1 :=
  ⟨(C7_quit_semantics failParse failLoader "QUIT" ["x"] []).1 rfl,
   (C7_quit_semantics failParse failLoader "x" [] []).2 (by decide) (by decide)⟩

/-- Claim C8, counterexample: the float32 cast is guarded by
`isinstance(embedding, np.ndarray)`, so an inference output of another
form — here a torch float64 tensor, which has `.tolist()` but is not a
numpy array — is returned at its native precision, not converted to
32-bit, contradicting "for every form the library's output may take". -/
theorem C8_counterexample :
    tensorModel.encode (Json.str "x") = .ok (EncodeOut.tensor NpDtype.float64 [5])
    ∧ generate_embedding (LoadRet.model tensorModel) (Json.str "x")
        = GenRet.list NpDtype.float64 [5]
    ∧ NpDtype.float64 ≠ NpDtype.float32 :=
  ⟨rfl, rfl, by decide⟩

/-- Claim C8, amended: on successful inference `generate_embedding`
converts the output to float32 precision before `tolist` exactly when the
output is a numpy array; a tensor-form output is listed at its native
precision without conversion, and a plain-list output (no `tolist`
attribute) produces the caught-exception tuple instead. -/
theorem C8_float32_cast (m : Model) (text : Json) (d : NpDtype) (v : List Int) :
    (m.encode text = .ok (EncodeOut.ndarray d v) →
        generate_embedding (LoadRet.model m) text = GenRet.list NpDtype.float32 v)
    ∧ (m.encode text = .ok (EncodeOut.tensor d v) →
        generate_embedding (LoadRet.model m) text = GenRet.list d v)
    ∧ (m.encode text = .ok (EncodeOut.pylist v) →
        generate_embedding (LoadRet.model m) text
          = GenRet.errTuple "list object has no attribute tolist") := by
  refine ⟨fun h => ?_, fun h => ?_, fun h => ?_⟩ <;> simp [generate_embedding, h]

/-- Witness for the amended C8 at a float64 numpy output. -/
theorem C8_witness :
    generate_embedding (LoadRet.model demoModel) (Json.str "hi")
        = GenRet.list NpDtype.float32 [1, 2, 3] :=
  (C8_float32_cast demoModel (Json.str "hi") NpDtype.float64 [1, 2, 3]).1 rfl

/-- Claim C9: for every parse outcome (valid JSON of any shape, or a
decode error) and every loader/model behavior, `handle_request` returns
normally (the outer `try/except` converts any escaping exception into a
response) and the response dict has exactly one key, `embedding` or
`error`. -/
theorem C9_total_single_key (loader : Loader) (cache : Cache)
    (parsed : Except String Json) :
    ∃ k v, (handle_request loader cache parsed).1 = [(k, v)]
      ∧ (k = "embedding" ∨ k = "error") := by
  rcases handle_request_body_shape loader cache parsed with
    ⟨e, h⟩ | ⟨k, v, c, n, h, hk⟩
  · exact ⟨"error", RespVal.str ("Unexpected error: " ++ e),
      by simp [handle_request, h], Or.inr rfl⟩
  · exact ⟨k, v, by simp [handle_request, h], hk⟩

/-- Claim C10: each line is stripped before interpretation — a
whitespace-only line produces no output line (the loop output equals the
output for the remaining lines), a line whose stripped content is `QUIT`
terminates the loop with no response, and `"  QUIT  "` strips to
`QUIT`. -/
theorem C10_lines_stripped (parse : ParseFn) (loader : Loader)
    (line : String) (rest : List String) (cache : Cache) :
    (pyStrip line = "" →
        main_loop parse loader (line :: rest) cache
          = main_loop parse loader rest cache)
    ∧ (pyStrip line = "QUIT" →
        main_loop parse loader (line :: rest) cache = [])
    ∧ pyStrip "  QUIT  " = "QUIT" := by
  refine ⟨fun h => ?_, fun h => ?_, rfl⟩
  · simp [main_loop, h]
  · simp [main_loop, h]

/-- Witness for C10: a whitespace-only line is skipped silently, and a
padded `QUIT` line terminates with no response. -/
theorem C10_witness :
    main_loop failParse failLoader ["   ", "QUIT"] []
        = main_loop failParse failLoader ["QUIT"] []
    ∧ main_loop failParse failLoader ["  QUIT  ", "x"] [] = [] :=
  ⟨(C10_lines_stripped failParse failLoader "   " ["QUIT"] []).1 (by decide),
   ((C10_lines_stripped failParse failLoader "  QUIT  " ["x"] []).2).1 (by decide)⟩

end Embeddings
